import Mathlib

/-!
Verification development for the fastFigma node-to-markup transform engine.

The Python sources embedded here (shallowly) are:
  * `src/fastFigma/schema.py`  — the typed node model (pydantic);
  * `src/fastFigma/export.py`  — style rule tables, `tw_from_map`,
    `effect_to_tailwind`, `parse_node`, `render_node`;
  * `src/fastFigma/api.py`     — `resolve_value`'s dotted-path walk;
  * `src/fastFigma/project.py` — `svg_map` construction.

Python floats are embedded as exact fractions (`PyFloat`, an integer
numerator over a natural denominator, semantics `PyFloat.toRat`); all
numeric fields coming from a JSON document denote such fractions.  All
operations are structural so that concrete runs reduce inside the kernel.
-/

/-- One decimal digit as a character. -/
def digitChar (d : Nat) : Char := Char.ofNat (48 + d)

/-- Decimal digits of a natural number (fuel-driven, structural). -/
def natStrAux : Nat → Nat → List Char
  | 0, _ => []
  | fuel + 1, n => if n < 10 then [digitChar n] else natStrAux fuel (n / 10) ++ [digitChar (n % 10)]

/-- Decimal rendering of a natural number, as Python's `str` renders it. -/
def natStr (n : Nat) : String := String.mk (natStrAux (n + 1) n)

/-- Decimal rendering of an integer, as Python's `str`/f-string renders an `int`. -/
def intStr : Int → String
  | .ofNat n => natStr n
  | .negSucc m => "-" ++ natStr (m + 1)

/-- Does the second list appear as an initial segment of the first? -/
def listStarts : List Char → List Char → Bool
  | _, [] => true
  | [], _ :: _ => false
  | c :: cs, p :: ps => c == p && listStarts cs ps

/-- Model of Python `str.startswith`. -/
def strStarts (s pat : String) : Bool := listStarts s.data pat.data

/-- Model of Python `str.strip()` with no argument (ASCII whitespace). -/
def pyStrip (s : String) : String :=
  String.mk ((s.data.dropWhile Char.isWhitespace).reverse.dropWhile Char.isWhitespace |>.reverse)

/-- If `pat` is an initial segment of `s`, return the remainder. -/
def dropMatch : List Char → List Char → Option (List Char)
  | s, [] => some s
  | [], _ :: _ => none
  | c :: cs, p :: ps => if c == p then dropMatch cs ps else none

/-- Replace the first occurrence of `pat` (non-empty) in the character list by `rep`. -/
def replFirstAux (pat rep : List Char) : List Char → List Char
  | [] => []
  | c :: cs =>
    match dropMatch (c :: cs) pat with
    | some rest => rep ++ rest
    | none => c :: replFirstAux pat rep cs

/-- Model of Python `s.replace(pat, rep, 1)` for a non-empty `pat`. -/
def replaceFirst (s pat rep : String) : String :=
  String.mk (replFirstAux pat.data rep.data s.data)

/-- Split a character list at every occurrence of the separator character. -/
def splitOnCharAux (sep : Char) : List Char → List Char → List String
  | [], acc => [String.mk acc.reverse]
  | c :: cs, acc =>
    if c == sep then String.mk acc.reverse :: splitOnCharAux sep cs []
    else splitOnCharAux sep cs (c :: acc)

/-- Model of Python `s.split(sep)` for a one-character separator:
`"".split(".") = [""]`, `"a.b".split(".") = ["a", "b"]`. -/
def splitOnChar (sep : Char) (s : String) : List String := splitOnCharAux sep s.data []

/-- Model of Python `sep.join(xs)` restricted to `" ".join`. -/
def joinWith (sep : String) : List String → String
  | [] => ""
  | [s] => s
  | s :: rest => s ++ sep ++ joinWith sep rest

/-- Model of Python `str.lower()` (ASCII letters). -/
def strLower (s : String) : String := String.mk (s.data.map Char.toLower)

/-- UTF-8 bytes of a single character. -/
def utf8Bytes (c : Char) : List Nat :=
  let n := c.toNat
  if n < 0x80 then [n]
  else if n < 0x800 then [0xC0 + n / 64, 0x80 + n % 64]
  else if n < 0x10000 then [0xE0 + n / 4096, 0x80 + n / 64 % 64, 0x80 + n % 64]
  else [0xF0 + n / 262144, 0x80 + n / 4096 % 64, 0x80 + n / 64 % 64, 0x80 + n % 64]

/-- Upper-case hexadecimal digit. -/
def hexDigit (d : Nat) : Char := if d < 10 then Char.ofNat (48 + d) else Char.ofNat (55 + d)

/-- Is this byte one of the bytes `urllib.parse.quote` never encodes
(ASCII letters, digits, `_`, `.`, `-`, `~`)? -/
def quoteSafeByte (b : Nat) : Bool :=
  (65 ≤ b && b ≤ 90) || (97 ≤ b && b ≤ 122) || (48 ≤ b && b ≤ 57) ||
  b == 95 || b == 46 || b == 45 || b == 126

/-- Model of Python `urllib.parse.quote(s, safe='')`: percent-encode every
UTF-8 byte outside the always-safe set, with upper-case hex digits. -/
def urlQuote (s : String) : String :=
  String.mk <| (s.data.flatMap utf8Bytes).flatMap fun b =>
    if quoteSafeByte b then [Char.ofNat b] else ['%', hexDigit (b / 16), hexDigit (b % 16)]

/-- A Python float value, embedded as the exact fraction it denotes:
an integer numerator over a natural denominator (denominator positive for
every value that arises from a document). -/
structure PyFloat where
  num : Int
  den : Nat
deriving DecidableEq, Repr

/-- The rational number a `PyFloat` denotes. -/
def PyFloat.toRat (x : PyFloat) : ℚ := (x.num : ℚ) / (x.den : ℚ)

/-- Python truthiness of a float: `0.0` is falsy, everything else truthy. -/
def PyFloat.truthy (x : PyFloat) : Bool := x.num != 0

/-- Python `x > 0` for a float (denominator positive). -/
def PyFloat.pos (x : PyFloat) : Bool := decide (0 < x.num)

/-- Python `x >= k` for a float and a non-negative integer literal
(denominator positive). -/
def PyFloat.geNat (x : PyFloat) (k : Nat) : Bool := decide ((k : Int) * (x.den : Int) ≤ x.num)

/-- Multiplication of a float by a natural-number literal (exact). -/
def PyFloat.mulNat (x : PyFloat) (k : Nat) : PyFloat := ⟨x.num * (k : Int), x.den⟩

/-- Model of Python `int(x)` on a float: truncation toward zero. -/
def pyInt (x : PyFloat) : Int := x.num.tdiv (x.den : Int)

/-- Smallest exponent `k` (searched with the given fuel) such that
`n * 10 ^ k` is divisible by `d`. -/
def decFind (n d : Nat) : Nat → Nat → Option Nat
  | _, 0 => none
  | k, fuel + 1 => if (n * 10 ^ k) % d == 0 then some k else decFind n d (k + 1) fuel

/-- Left-pad a digit string with zeros up to length `k`. -/
def padZeros (s : List Char) (k : Nat) : List Char :=
  List.replicate (k - s.length) '0' ++ s

/-- Model of Python `str(x)` / f-string interpolation on a float whose value
is a terminating decimal (the form JSON documents supply): minimal decimal
digits, always at least one digit after the point (`str(1.0) = "1.0"`). -/
def pyFloatStr (x : PyFloat) : String :=
  let sign := if x.num < 0 then "-" else ""
  let n := x.num.natAbs
  match decFind n x.den 0 64 with
  | some 0 => sign ++ natStr (n / x.den) ++ ".0"
  | some k =>
    let m := n * 10 ^ k / x.den
    sign ++ natStr (m / 10 ^ k) ++ "." ++ String.mk (padZeros (natStrAux (m % 10 ^ k + 1) (m % 10 ^ k)) k)
  | none => sign ++ natStr n ++ "/" ++ natStr x.den

example : natStr 0 = "0" := by decide
example : intStr (-12) = "-12" := by decide
example : pyFloatStr ⟨1, 2⟩ = "0.5" := by decide
example : pyFloatStr ⟨1, 1⟩ = "1.0" := by decide
example : pyFloatStr ⟨0, 1⟩ = "0.0" := by decide
example : pyFloatStr ⟨-3, 4⟩ = "-0.75" := by decide
example : urlQuote "https://x/y" = "https%3A%2F%2Fx%2Fy" := by decide
example : pyStrip "  $api x " = "$api x" := by decide
example : replaceFirst " $api rest" "$api" "" = "  rest" := by decide
example : splitOnChar '.' "a.b" = ["a", "b"] := by decide
example : splitOnChar '.' "" = [""] := by decide
example : pyInt ⟨255, 2⟩ = 127 := by decide
example : pyInt ⟨-5, 2⟩ = -2 := by decide

/-- A parsed JSON value, as Python's `json.loads` produces it
(`null`/`True`/`False`/`int`/`str`/`list`/`dict`); non-integer numbers are
outside the fragment the binding directives use and are not modelled. -/
inductive Json where
  | null
  | bool (b : Bool)
  | int (n : Int)
  | str (s : String)
  | arr (xs : List Json)
  | obj (kvs : List (String × Json))

mutual
/-- Model of Python `str(x)` on a decoded JSON value. -/
def pyStr : Json → String
  | .null => "None"
  | .bool true => "True"
  | .bool false => "False"
  | .int n => intStr n
  | .str s => s
  | .arr xs => "[" ++ joinWith ", " (pyReprList xs) ++ "]"
  | .obj kvs => "\x7b" ++ joinWith ", " (pyReprKVs kvs) ++ "\x7d"

/-- Model of Python `repr(x)` on a decoded JSON value (strings quoted). -/
def pyRepr : Json → String
  | .null => "None"
  | .bool true => "True"
  | .bool false => "False"
  | .int n => intStr n
  | .str s => "'" ++ s ++ "'"
  | .arr xs => "[" ++ joinWith ", " (pyReprList xs) ++ "]"
  | .obj kvs => "\x7b" ++ joinWith ", " (pyReprKVs kvs) ++ "\x7d"

/-- `repr` of every element of a list. -/
def pyReprList : List Json → List String
  | [] => []
  | x :: xs => pyRepr x :: pyReprList xs

/-- `repr` of every `key: value` entry of a dict. -/
def pyReprKVs : List (String × Json) → List String
  | [] => []
  | (k, v) :: kvs => ("'" ++ k ++ "': " ++ pyRepr v) :: pyReprKVs kvs
end

/-- Insert into an association list with Python-dict semantics: an existing
key keeps its position and gets the new value, a new key is appended. -/
def dictInsert {β : Type} : List (String × β) → String → β → List (String × β)
  | [], k, v => [(k, v)]
  | (k0, v0) :: rest, k, v =>
    if k0 == k then (k0, v) :: rest else (k0, v0) :: dictInsert rest k v

/-- JSON whitespace skipping. -/
def skipWs (cs : List Char) : List Char :=
  cs.dropWhile fun c => c == ' ' || c == '\t' || c == '\n' || c == '\r'

/-- One JSON string escape (the `\uXXXX` form is outside the modelled fragment). -/
def escChar : Char → Option Char
  | 'n' => some (Char.ofNat 10)
  | 't' => some (Char.ofNat 9)
  | 'r' => some (Char.ofNat 13)
  | 'b' => some (Char.ofNat 8)
  | 'f' => some (Char.ofNat 12)
  | '"' => some '"'
  | '\\' => some '\\'
  | '/' => some '/'
  | _ => none

/-- Parse the body of a JSON string (after the opening quote). -/
def parseStr : List Char → Option (String × List Char)
  | [] => none
  | '"' :: rest => some ("", rest)
  | '\\' :: c :: rest => do
    let e ← escChar c
    let (s, r) ← parseStr rest
    some (String.mk (e :: s.data), r)
  | c :: rest => do
    let (s, r) ← parseStr rest
    some (String.mk (c :: s.data), r)

/-- Numeric value of a list of decimal digits. -/
def digitsToNat (ds : List Char) : Nat :=
  ds.foldl (fun a c => a * 10 + (c.toNat - 48)) 0

/-- Parse a JSON integer token (floats are outside the modelled fragment). -/
def parseIntTok (cs : List Char) : Option (Json × List Char) :=
  let core : List Char → Option (Nat × List Char) := fun t =>
    let (ds, r) := t.span Char.isDigit
    if ds.isEmpty then none
    else match r with
      | '.' :: _ => none
      | 'e' :: _ => none
      | 'E' :: _ => none
      | _ => some (digitsToNat ds, r)
  match cs with
  | '-' :: rest => (core rest).map fun (n, r) => (Json.int (-(n : Int)), r)
  | _ => (core cs).map fun (n, r) => (Json.int (n : Int), r)

mutual
/-- Parse one JSON value (fuel-driven). -/
def parseVal : Nat → List Char → Option (Json × List Char)
  | 0, _ => none
  | fuel + 1, cs =>
    match skipWs cs with
    | 'n' :: 'u' :: 'l' :: 'l' :: rest => some (.null, rest)
    | 't' :: 'r' :: 'u' :: 'e' :: rest => some (.bool true, rest)
    | 'f' :: 'a' :: 'l' :: 's' :: 'e' :: rest => some (.bool false, rest)
    | '"' :: rest => (parseStr rest).map fun (s, r) => (.str s, r)
    | '[' :: rest =>
      (match skipWs rest with
       | ']' :: r2 => some (.arr [], r2)
       | cs2 => (parseArrRest fuel cs2 []).map fun (xs, r) => (.arr xs, r))
    | '\x7b' :: rest =>
      (match skipWs rest with
       | '\x7d' :: r2 => some (.obj [], r2)
       | cs2 => (parseObjRest fuel cs2 []).map fun (kvs, r) => (.obj kvs, r))
    | cs1 => parseIntTok cs1

/-- Parse the remaining comma-separated items of a JSON array. -/
def parseArrRest : Nat → List Char → List Json → Option (List Json × List Char)
  | 0, _, _ => none
  | fuel + 1, cs, acc => do
    let (v, r) ← parseVal fuel cs
    match skipWs r with
    | ',' :: r2 => parseArrRest fuel r2 (acc ++ [v])
    | ']' :: r2 => some (acc ++ [v], r2)
    | _ => none

/-- Parse the remaining `"key": value` entries of a JSON object
(duplicate keys overwrite, as in a Python dict). -/
def parseObjRest : Nat → List Char → List (String × Json) → Option (List (String × Json) × List Char)
  | 0, _, _ => none
  | fuel + 1, cs, acc =>
    match skipWs cs with
    | '"' :: r => do
      let (k, r1) ← parseStr r
      match skipWs r1 with
      | ':' :: r2 => do
        let (v, r3) ← parseVal fuel r2
        match skipWs r3 with
        | ',' :: r4 => parseObjRest fuel r4 (dictInsert acc k v)
        | '\x7d' :: r4 => some (dictInsert acc k v, r4)
        | _ => none
      | _ => none
    | _ => none
end

/-- Model of Python `json.loads`, restricted to the fragment binding
directives use (objects, arrays, strings, integers, booleans, null);
`none` models a raised `JSONDecodeError`. -/
def json_loads (s : String) : Option Json :=
  match parseVal (2 * s.data.length + 4) s.data with
  | some (v, rest) => if (skipWs rest).isEmpty then some v else none
  | none => none

/-- The dotted-path walk at the heart of `resolve_value` (`api.py`): one key
at a time; a step whose current value is not a dict, or whose key is absent,
returns the placeholder `"?"`; after the last key the value is stringified. -/
def resolve_walk : Json → List String → String
  | data, [] => pyStr data
  | data, key :: rest =>
    match data with
    | .obj kvs =>
      match List.lookup key kvs with
      | some v => resolve_walk v rest
      | none => "?"
    | _ => "?"

/-- `resolve_value`'s treatment of a fetched document and a dotted path:
`for key in path.split("."): ...` then `str(data)`. -/
def resolve_value_path (data : Json) (path : String) : String :=
  resolve_walk data (splitOnChar '.' path)

example : json_loads "\x7b\"a\": 1, \"b\": [true, null]\x7d" =
    some (Json.obj [("a", Json.int 1), ("b", Json.arr [Json.bool true, Json.null])]) := by rfl
example : json_loads "\x7boops" = none := by rfl
example : json_loads "  -12  " = some (Json.int (-12)) := by rfl
example : pyStr (Json.obj [("a", Json.int 1)]) = "\x7b'a': 1\x7d" := by decide
example : resolve_value_path (Json.obj [("a", Json.obj [("b", Json.int 42)])]) "a.b" = "42" := by rfl

/-- `schema.Color`: `{r, g, b, a}`, each a float. -/
structure Color where
  r : PyFloat
  g : PyFloat
  b : PyFloat
  a : PyFloat
deriving DecidableEq, Repr

/-- `schema.Paint`: an optional paint kind tag and an optional color. -/
structure Paint where
  blendMode : Option String := none
  type : Option String := none
  color : Option Color := none
deriving DecidableEq, Repr

/-- `schema.Rectangle`: `{x, y, width, height}`. -/
structure Rectangle where
  x : PyFloat
  y : PyFloat
  width : PyFloat
  height : PyFloat
deriving DecidableEq, Repr

/-- The shadow offset mapping `{"x": …, "y": …}` of `schema.Effect.offset`
(a Python dict of floats; only the `x` and `y` entries are read). -/
structure OffsetXY where
  x : PyFloat
  y : PyFloat
deriving DecidableEq, Repr

/-- `schema.Effect.type`: `Literal["DROP_SHADOW", "INNER_SHADOW", "LAYER_BLUR", "BACKGROUND_BLUR"]`. -/
inductive EffectType where
  | DROP_SHADOW
  | INNER_SHADOW
  | LAYER_BLUR
  | BACKGROUND_BLUR
deriving DecidableEq, Repr, BEq

/-- `schema.Effect`. -/
structure Effect where
  type : EffectType
  visible : Option Bool := some true
  blendMode : Option String := none
  color : Option Color := none
  offset : Option OffsetXY := none
  radius : Option PyFloat := none
  spread : Option PyFloat := none
deriving DecidableEq, Repr

/-- `schema.TextStyle` (the fields the rule tables read, plus neighbours). -/
structure TextStyle where
  fontFamily : Option String := none
  fontPostScriptName : Option String := none
  fontStyle : Option String := none
  fontWeight : Option PyFloat := none
  textAutoResize : Option String := none
  fontSize : Option PyFloat := none
  textAlignHorizontal : Option String := none
  textAlignVertical : Option String := none
  letterSpacing : Option PyFloat := none
  lineHeightPx : Option PyFloat := none
  lineHeightPercent : Option PyFloat := none
  lineHeightUnit : Option String := none
deriving DecidableEq, Repr

/-- `schema.FrameNode` minus its recursive `children` field (lifted into the
`TNode.frame` constructor below).  Defaults follow the pydantic model:
`fills`/`strokes` default to `[]`, `strokeWeight` to `0.0`, `effects` to `[]`.
`primaryAxisAlignItems` is not a declared pydantic field but is retained via
`extra = "allow"` and read back by `getattr` in the rule engine. -/
structure FrameData where
  id : String
  name : Option String
  scrollBehavior : Option String := none
  blendMode : Option String := none
  clipsContent : Option Bool := none
  layoutMode : Option String := none
  itemSpacing : Option PyFloat := none
  primaryAxisSizingMode : Option String := none
  primaryAxisAlignItems : Option String := none
  counterAxisAlignItems : Option String := none
  paddingTop : Option PyFloat := none
  paddingRight : Option PyFloat := none
  paddingBottom : Option PyFloat := none
  paddingLeft : Option PyFloat := none
  absoluteBoundingBox : Option Rectangle := none
  fills : Option (List Paint) := some []
  strokes : Option (List Paint) := some []
  strokeWeight : Option PyFloat := some ⟨0, 1⟩
  strokeAlign : Option String := none
  cornerRadius : Option PyFloat := none
  rectangleCornerRadii : Option (List PyFloat) := none
  effects : List Effect := []
deriving DecidableEq, Repr

/-- `schema.TextNode` (the fields the engine reads). -/
structure TextData where
  id : String
  name : Option String
  characters : Option String
  style : Option TextStyle := none
  fills : Option (List Paint) := none
  strokes : Option (List Paint) := none
  strokeWeight : Option PyFloat := none
  absoluteBoundingBox : Option Rectangle := none
  effects : List Effect := []
deriving DecidableEq, Repr

/-- `schema.VectorNode` (the fields the engine reads); `name` defaults to `None`. -/
structure VectorData where
  id : String
  name : Option String := none
  fills : Option (List Paint) := none
  strokes : Option (List Paint) := none
  strokeWeight : Option PyFloat := none
  absoluteBoundingBox : Option Rectangle := none
  effects : List Effect := []
deriving DecidableEq, Repr

/-- A validated node: the `Union[FrameNode, TextNode, VectorNode]` of
`export.py`, with `FrameNode.children` lifted into the `frame` constructor. -/
inductive TNode where
  | frame (d : FrameData) (children : Option (List TNode))
  | text (d : TextData)
  | vector (d : VectorData)

/-- The `rgba({int(c.r*255)},{int(c.g*255)},{int(c.b*255)},{c.a})` f-string
shared by the fill, stroke, text-color and shadow rules. -/
def rgbaStr (c : Color) : String :=
  "rgba(" ++ intStr (pyInt (c.r.mulNat 255)) ++ "," ++ intStr (pyInt (c.g.mulNat 255)) ++ ","
    ++ intStr (pyInt (c.b.mulNat 255)) ++ "," ++ pyFloatStr c.a ++ ")"

/-- The `f"…{x}px_{y}px_{r}px_{rgba}]"` drop-shadow utility token of
`effect_to_tailwind`. -/
def shadowTok (o : OffsetXY) (rad : PyFloat) (c : Color) : String :=
  "drop-shadow-[" ++ intStr (pyInt o.x) ++ "px_" ++ intStr (pyInt o.y) ++ "px_"
    ++ intStr (pyInt rad) ++ "px_" ++ rgbaStr c ++ "]"

/-- `export.effect_to_tailwind`: guard
`e.type in ("DROP_SHADOW", "INNER_SHADOW") and e.offset and e.radius and e.color`
(Python truthiness: a present offset dict is non-empty, a radius of `0.0` is
falsy, a present `Color` model is truthy), then one token for a drop shadow
and two for an inner shadow. -/
def effect_to_tailwind (e : Effect) : List String :=
  if (e.type = EffectType.DROP_SHADOW ∨ e.type = EffectType.INNER_SHADOW)
      ∧ e.offset.isSome = true ∧ (e.radius.map PyFloat.truthy).getD false = true
      ∧ e.color.isSome = true then
    match e.offset, e.radius, e.color with
    | some o, some rad, some c =>
      if e.type = EffectType.DROP_SHADOW then [shadowTok o rad c]
      else ["shadow-inner", shadowTok o rad c]
    | _, _, _ => []
  else []

/-- `FRAME_TW_MAP["layoutMode"]`: a fixed dict, `.get(val, [])`. -/
def layoutModeTw (v : String) : List String :=
  if v == "HORIZONTAL" then ["flex", "flex-row"]
  else if v == "VERTICAL" then ["flex", "flex-col"]
  else []

/-- `FRAME_TW_MAP["primaryAxisAlignItems"]`. -/
def primaryAxisTw (v : String) : List String :=
  if v == "MIN" then ["justify-start"]
  else if v == "CENTER" then ["justify-center"]
  else if v == "MAX" then ["justify-end"]
  else if v == "SPACE_BETWEEN" then ["justify-between"]
  else []

/-- `FRAME_TW_MAP["counterAxisAlignItems"]`. -/
def counterAxisTw (v : String) : List String :=
  if v == "MIN" then ["items-start"]
  else if v == "CENTER" then ["items-center"]
  else if v == "MAX" then ["items-end"]
  else []

/-- `FRAME_TW_MAP["absoluteBoundingBox"]` (also reused by `VECTOR_TW_MAP`). -/
def boundingBoxTw (b : Rectangle) : List String :=
  ["w-[" ++ intStr (pyInt b.width) ++ "px]", "h-[" ++ intStr (pyInt b.height) ++ "px]"]

/-- `FRAME_TW_MAP["fills"]`: one `bg-[rgba(…)]` token per paint with
`p.type == "SOLID" and p.color`. -/
def fillsTwFrame (paints : Option (List Paint)) : List String :=
  (paints.getD []).filterMap fun p =>
    if p.type == some "SOLID" then p.color.map (fun c => "bg-[" ++ rgbaStr c ++ "]") else none

/-- `FRAME_TW_MAP["strokeWeight"]`: the cross-attribute border rule
`["border", f"border-[{int(w)}px]"] if w and w > 0 and (m.strokes or []) else []`. -/
def strokeWeightTw (w : PyFloat) (strokes : Option (List Paint)) : List String :=
  if w.truthy && w.pos && !(strokes.getD []).isEmpty then
    ["border", "border-[" ++ intStr (pyInt w) ++ "px]"]
  else []

/-- `FRAME_TW_MAP["strokes"]`: one `border-[rgba(…)]` token per solid paint
with a color.  (`VECTOR_TW_MAP["fills"]` reuses exactly this rule.) -/
def strokesTwFrame (paints : Option (List Paint)) : List String :=
  (paints.getD []).filterMap fun p =>
    if p.type == some "SOLID" then p.color.map (fun c => "border-[" ++ rgbaStr c ++ "]") else none

/-- The `effects` rule shared by all three maps:
`[cls for e in effs or [] for cls in effect_to_tailwind(e)]`. -/
def effectsTw (effs : List Effect) : List String :=
  (effs.map effect_to_tailwind).flatten

/-- `tw_from_map`'s rule dispatch for one attribute: a `None` value skips the
rule, as does an empty list value (`val is None or (isinstance(val, list) and not val)`). -/
def evalOptRule {α : Type} (val : Option α) (f : α → List String) : List String :=
  match val with
  | none => []
  | some v => f v

/-- `tw_from_map`'s dispatch for a list-valued attribute (empty list skips). -/
def evalListRule {α : Type} (val : List α) (f : List α → List String) : List String :=
  if val.isEmpty then [] else f val

/-- `tw_from_map`'s dispatch for an `Optional[List]` attribute. -/
def evalOptListRule {α : Type} (val : Option (List α)) (f : Option (List α) → List String) : List String :=
  match val with
  | none => []
  | some l => if l.isEmpty then [] else f (some l)

/-- `tw_from_map`'s trailing `if m.name: cls.append(m.name)`. -/
def nameTw (name : Option String) : List String :=
  match name with
  | some n => if n == "" then [] else [n]
  | none => []

/-- `tw_from_map(m, FRAME_TW_MAP)`: the rules in table-declaration order,
then the literal `name` token. -/
def twFrame (m : FrameData) : List String :=
  evalOptRule m.layoutMode layoutModeTw
  ++ evalOptRule m.primaryAxisAlignItems primaryAxisTw
  ++ evalOptRule m.counterAxisAlignItems counterAxisTw
  ++ evalOptRule m.itemSpacing (fun v => ["gap-[" ++ intStr (pyInt v) ++ "px]"])
  ++ evalOptRule m.paddingTop (fun v => ["pt-[" ++ intStr (pyInt v) ++ "px]"])
  ++ evalOptRule m.paddingRight (fun v => ["pr-[" ++ intStr (pyInt v) ++ "px]"])
  ++ evalOptRule m.paddingBottom (fun v => ["pb-[" ++ intStr (pyInt v) ++ "px]"])
  ++ evalOptRule m.paddingLeft (fun v => ["pl-[" ++ intStr (pyInt v) ++ "px]"])
  ++ evalOptRule m.cornerRadius (fun v => ["rounded-[" ++ intStr (pyInt v) ++ "px]"])
  ++ evalOptRule m.absoluteBoundingBox boundingBoxTw
  ++ evalOptListRule m.fills fillsTwFrame
  ++ evalOptRule m.strokeWeight (fun w => strokeWeightTw w m.strokes)
  ++ evalOptListRule m.strokes strokesTwFrame
  ++ evalListRule m.effects effectsTw
  ++ nameTw m.name

/-- The font-weight addend of `TEXT_TW_MAP["style"]`:
`["font-bold"] if s.fontWeight and s.fontWeight >= 700 else
 ["font-medium"] if s.fontWeight and s.fontWeight >= 500 else []`. -/
def fontWeightTw (fw : Option PyFloat) : List String :=
  match fw with
  | some w =>
    if w.truthy && w.geNat 700 then ["font-bold"]
    else if w.truthy && w.geNat 500 then ["font-medium"]
    else []
  | none => []

/-- `TEXT_TW_MAP["style"]`: the five independent addends (font size, font
weight, line height, letter spacing, text alignment); each addend is guarded
by the truthiness of its field.  (The leading `[] if not s` branch of the
lambda is dead: a pydantic model instance is always truthy.) -/
def styleTw (s : TextStyle) : List String :=
  (match s.fontSize with
   | some v => if v.truthy then ["text-[" ++ intStr (pyInt v) ++ "px]"] else []
   | none => [])
  ++ fontWeightTw s.fontWeight
  ++ (match s.lineHeightPx with
      | some v => if v.truthy then ["leading-[" ++ intStr (pyInt v) ++ "px]"] else []
      | none => [])
  ++ (match s.letterSpacing with
      | some v => if v.truthy then ["tracking-[" ++ intStr (pyInt v) ++ "px]"] else []
      | none => [])
  ++ (match s.textAlignHorizontal with
      | some v => if v == "" then [] else ["text-" ++ strLower v]
      | none => [])

/-- `TEXT_TW_MAP["fills"]`: one `text-[rgba(…)]` token per solid paint with a
color. -/
def fillsTwText (paints : Option (List Paint)) : List String :=
  (paints.getD []).filterMap fun p =>
    if p.type == some "SOLID" then p.color.map (fun c => "text-[" ++ rgbaStr c ++ "]") else none

/-- `tw_from_map(m, TEXT_TW_MAP)`. -/
def twText (m : TextData) : List String :=
  evalOptRule m.style styleTw
  ++ evalOptListRule m.fills fillsTwText
  ++ evalListRule m.effects effectsTw
  ++ nameTw m.name

/-- `tw_from_map(m, VECTOR_TW_MAP)`: bounding box as for frames, and the
frame `strokes` rule repurposed for `fills` (the documented quirk: vector
fills emit `border-[rgba(…)]` tokens). -/
def twVector (m : VectorData) : List String :=
  evalOptRule m.absoluteBoundingBox boundingBoxTw
  ++ evalOptListRule m.fills strokesTwFrame
  ++ evalListRule m.effects effectsTw
  ++ nameTw m.name

example : strokeWeightTw ⟨2, 1⟩ (some []) = [] := by decide
example : strokeWeightTw ⟨2, 1⟩ (some [{ type := some "SOLID", color := some ⟨⟨1, 1⟩, ⟨0, 1⟩, ⟨0, 1⟩, ⟨1, 1⟩⟩ }]) =
    ["border", "border-[2px]"] := by decide
example : fontWeightTw (some ⟨550, 1⟩) = ["font-medium"] := by decide
example : fontWeightTw (some ⟨700, 1⟩) = ["font-bold"] := by decide
example : effect_to_tailwind
    { type := .INNER_SHADOW, color := some ⟨⟨0, 1⟩, ⟨0, 1⟩, ⟨0, 1⟩, ⟨1, 2⟩⟩,
      offset := some ⟨⟨1, 1⟩, ⟨2, 1⟩⟩, radius := some ⟨3, 1⟩ } =
    ["shadow-inner", "drop-shadow-[1px_2px_3px_rgba(0,0,0,0.5)]"] := by decide

/-- The output markup tree: `Div(*children, **attrs)`, `Div(Safe(svg), **attrs)`,
`P(text, **attrs)` and `Img(src=…, alt=…, **attrs)` from `fasthtml`.
Attributes are kept in insertion order, as a Python dict does. -/
inductive Html where
  | div (attrs : List (String × String)) (children : List Html)
  | divSafe (attrs : List (String × String)) (raw : String)
  | p (text : String) (attrs : List (String × String))
  | img (src : String) (alt : String) (attrs : List (String × String))

/-- `render_node`'s attribute dict after the style computation:
`attrs["cls"] = " ".join(tw)` only when `tw` is non-empty. -/
def clsAttrs (tw : List String) : List (String × String) :=
  if tw.isEmpty then [] else [("cls", joinWith " " tw)]

/-- Python `trigger == "once"` where `trigger` is a decoded JSON value
(equality across types is `False`). -/
def isOnce : Json → Bool
  | .str s => s == "once"
  | _ => false

/-- The `TextNode` branch of `render_node`: binding-directive detection on
the node's `name` (`$api` marker after stripping), `json.loads` of the
remainder, HTMX attribute construction, and the `"?"`/`"..."` placeholder
rules.  `"?"` arises from the `except` clause: a `json.loads` failure, a
`config.get` on a non-dict (`AttributeError`), or `urllib.parse.quote` on a
missing or non-string `src` (`TypeError`).  A present but missing `path`
raises nothing: the f-string renders `None`. -/
def renderText (m : TextData) : Html :=
  let attrs := clsAttrs (twText m)
  let text := match m.characters with
    | some s => s
    | none => ""
  match m.name with
  | some n =>
    if n != "" && strStarts (pyStrip n) "$api" then
      match json_loads (pyStrip (replaceFirst n "$api" "")) with
      | some (Json.obj kvs) =>
        (match List.lookup "src" kvs with
         | some (Json.str src) =>
           let pathv := (List.lookup "path" kvs).getD Json.null
           let trigger := (List.lookup "trigger" kvs).getD (Json.str "once")
           Html.p "..." (attrs ++
             [("hx-get", "/api/value?src=" ++ urlQuote src ++ "&path=" ++ pyStr pathv),
              ("hx-swap", "innerHTML"),
              ("hx-trigger", if isOnce trigger then "load" else "every 1s")])
         | _ => Html.p "?" attrs)
      | some _ => Html.p "?" attrs
      | none => Html.p "?" attrs
    else Html.p text attrs
  | none => Html.p text attrs

/-- The `VectorNode` branch of `render_node`: `svg_map.get(m.id, "") if svg_map
else ""`, then either an inline `Div(Safe(svg))` when the markup starts with
`<svg` after stripping, or an `Img` fallback whose `src` is the lookup value
and whose `alt` is `m.name or ""`. -/
def renderVector (m : VectorData) (svg_map : Option (List (String × String))) : Html :=
  let attrs := clsAttrs (twVector m)
  let svg := match svg_map with
    | some sm => (List.lookup m.id sm).getD ""
    | none => ""
  if strStarts (pyStrip svg) "<svg" then Html.divSafe attrs svg
  else Html.img svg (m.name.getD "") attrs

mutual
/-- `render_node` on a validated node (with `figma_to_fasthtml`'s recursion
into `m.children or []` for frames). -/
def render_node (svg_map : Option (List (String × String))) : TNode → Html
  | .text d => renderText d
  | .vector d => renderVector d svg_map
  | .frame d none => Html.div (clsAttrs (twFrame d)) []
  | .frame d (some cs) => Html.div (clsAttrs (twFrame d)) (renderChildren svg_map cs)

/-- The children list comprehension of `render_node`'s frame branch. -/
def renderChildren (svg_map : Option (List (String × String))) : List TNode → List Html
  | [] => []
  | c :: cs => render_node svg_map c :: renderChildren svg_map cs
end

/-- A raw (un-validated) node mapping, restricted to the fields that drive
validation and recursion: `id`, `name`, `type`, `characters`, `children`.
A missing outer `Option` is an absent key; the inner `Option` of `name` and
`characters` is a JSON `null` value.  Remaining attributes are
preserved-but-ignored (`extra = "allow"`) and are not constrained by the
validators modelled here. -/
inductive RawNode where
  | mk (id : Option String) (name : Option (Option String)) (type : Option String)
       (characters : Option (Option String)) (children : Option (List RawNode))

/-- The raw `type` field (`node.get("type")`). -/
def RawNode.type : RawNode → Option String
  | .mk _ _ t _ _ => t

/-- `TextNode.model_validate`: `id`, `name` and `characters` are required
keys (`name` and `characters` may be null), and `type` must be the literal
`"TEXT"`. -/
def validateText : RawNode → Except String TNode
  | .mk id name ty chars _ =>
    match id with
    | none => .error "TextNode: field required: id"
    | some i =>
      match name with
      | none => .error "TextNode: field required: name"
      | some nm =>
        if ty == some "TEXT" then
          match chars with
          | none => .error "TextNode: field required: characters"
          | some cv => .ok (.text { id := i, name := nm, characters := cv })
        else .error "TextNode: type must be the literal TEXT"

/-- `VectorNode.model_validate`: `id` is required, `name` defaults to null,
and `type` must be the literal `"VECTOR"`. -/
def validateVector : RawNode → Except String TNode
  | .mk id name ty _ _ =>
    match id with
    | none => .error "VectorNode: field required: id"
    | some i =>
      if ty == some "VECTOR" then .ok (.vector { id := i, name := name.getD none })
      else .error "VectorNode: type must be the literal VECTOR"

mutual
/-- `FrameNode.model_validate`: `id` and `name` are required keys, `type`
must be the literal `"FRAME"` (the `Literal["FRAME"]` annotation of
`schema.FrameNode`), and a present `children` list is validated recursively
against `Union[FrameNode, TextNode, VectorNode]`. -/
def validateFrame : RawNode → Except String TNode
  | .mk id name ty _ kids =>
    match id with
    | none => .error "FrameNode: field required: id"
    | some i =>
      match name with
      | none => .error "FrameNode: field required: name"
      | some nm =>
        if ty == some "FRAME" then
          match kids with
          | none => .ok (.frame { id := i, name := nm } none)
          | some cs => do
            let ts ← validateKids cs
            .ok (.frame { id := i, name := nm } (some ts))
        else .error "FrameNode: type must be the literal FRAME"

/-- Validation of each element of a raw `children` list. -/
def validateKids : List RawNode → Except String (List TNode)
  | [] => .ok []
  | c :: cs => do
    let t ← validateUnion c
    let ts ← validateKids cs
    .ok (t :: ts)

/-- Validation against `Union[FrameNode, TextNode, VectorNode]` (members
tried in declaration order). -/
def validateUnion (r : RawNode) : Except String TNode :=
  match validateFrame r with
  | .ok t => .ok t
  | .error _ =>
    match validateText r with
    | .ok t => .ok t
    | .error _ => validateVector r
end

/-- `export.parse_node`: dispatch on the raw `type` field, with
`FrameNode.model_validate` as the fallback for any unrecognised or missing
`type`.  An `Except.error` models a raised pydantic `ValidationError`. -/
def parse_node (node : RawNode) : Except String TNode :=
  let t := node.type
  if t == some "FRAME" then validateFrame node
  else if t == some "TEXT" then validateText node
  else if t == some "VECTOR" then validateVector node
  else validateFrame node

/-- `project.FigmaProject.svg_map`: fold over the vector node ids; a
successful fetch stores the markup under the id, a failure is caught at that
entry (logged) and the loop moves on.  `fetch` abstracts `get_svg_markup`
(network calls, external to this core). -/
def svg_map_build (fetch : String → Except String String) (nodes : List String) : List (String × String) :=
  nodes.foldl (fun acc nid =>
    match fetch nid with
    | .ok markup => dictInsert acc nid markup
    | .error _ => acc) []

example : (parse_node (.mk (some "1") (some none) (some "STICKY") none none)).isOk = false := by
  simp [parse_node, validateFrame, RawNode.type, Except.isOk, Except.toBool]
example : (parse_node (.mk (some "1") (some none) (some "FRAME") none none)).isOk = true := by
  simp [parse_node, validateFrame, RawNode.type, Except.isOk, Except.toBool]
example : renderText { id := "t", name := some "caption", characters := some "hi" } =
    Html.p "hi" [("cls", "caption")] := by rfl

theorem PyFloat.toRat_mulNat (x : PyFloat) (k : Nat) : (x.mulNat k).toRat = x.toRat * k := by
  simp only [PyFloat.toRat, PyFloat.mulNat]
  push_cast
  ring

theorem PyFloat.pos_iff (x : PyFloat) (hd : 0 < x.den) : x.pos = true ↔ 0 < x.toRat := by
  have hq : (0 : ℚ) < (x.den : ℚ) := by exact_mod_cast hd
  simp only [PyFloat.pos, decide_eq_true_eq, PyFloat.toRat]
  rw [lt_div_iff₀ hq, zero_mul]
  exact ⟨fun h => by exact_mod_cast h, fun h => by exact_mod_cast h⟩

theorem PyFloat.geNat_iff (x : PyFloat) (hd : 0 < x.den) (k : Nat) :
    x.geNat k = true ↔ ((k : ℚ) ≤ x.toRat) := by
  have hq : (0 : ℚ) < (x.den : ℚ) := by exact_mod_cast hd
  simp only [PyFloat.geNat, decide_eq_true_eq, PyFloat.toRat]
  rw [le_div_iff₀ hq]
  exact ⟨fun h => by exact_mod_cast h, fun h => by exact_mod_cast h⟩

theorem PyFloat.truthy_iff (x : PyFloat) (hd : 0 < x.den) : x.truthy = true ↔ x.toRat ≠ 0 := by
  have hq : (x.den : ℚ) ≠ 0 := by positivity
  simp only [PyFloat.truthy, bne_iff_ne, ne_eq, PyFloat.toRat, div_eq_zero_iff, hq, or_false]
  exact ⟨fun h hc => h (by exact_mod_cast hc), fun h hc => h (by exact_mod_cast hc)⟩

theorem PyFloat.num_nonneg_of_toRat (x : PyFloat) (hd : 0 < x.den) (h : 0 ≤ x.toRat) :
    0 ≤ x.num := by
  have hq : (0 : ℚ) < (x.den : ℚ) := by exact_mod_cast hd
  rw [PyFloat.toRat, le_div_iff₀ hq, zero_mul] at h
  exact_mod_cast h

theorem pyInt_eq_floor (x : PyFloat) (hd : 0 < x.den) (hn : 0 ≤ x.num) :
    pyInt x = ⌊x.toRat⌋ := by
  rw [PyFloat.toRat, Rat.floor_intCast_div_natCast, pyInt]
  exact Int.tdiv_eq_ediv hn (by exact_mod_cast hd.le)

/-- The spec's description of the dotted-path walk: one key at a time, a
step on a non-mapping or an absent key yields no value, otherwise the walk
continues; the result after the last key is the found value. -/
def walkSpec : Json → List String → Option Json
  | d, [] => some d
  | d, k :: ks =>
    match d with
    | .obj kvs => (List.lookup k kvs).bind fun v => walkSpec v ks
    | _ => none

/-- The resolver example document `{"a": {"b": 42}}`. -/
def docAB : Json := Json.obj [("a", Json.obj [("b", Json.int 42)])]

theorem resolve_walk_eq_walkSpec : ∀ (ks : List String) (d : Json),
    resolve_walk d ks = match walkSpec d ks with
      | some v => pyStr v
      | none => "?" := by
  intro ks
  induction ks with
  | nil => intro d; rfl
  | cons k rest ih =>
    intro d
    cases d with
    | obj kvs =>
      simp only [resolve_walk, walkSpec]
      cases List.lookup k kvs with
      | none => rfl
      | some v => simp only [Option.bind_some]; exact ih v
    | null => rfl
    | bool b => rfl
    | int n => rfl
    | str s => rfl
    | arr xs => rfl

/-- C3: for every fetched JSON document and dotted path, the resolver walks
the parsed value one key at a time; when every key is present it returns the
stringified final value, and when a step hits a non-mapping or an absent key
it stops with the placeholder `"?"`.  In particular `{"a": {"b": 42}}` with
path `"a.b"` yields `"42"`, while `"a.c"` and `"a.b.c"` yield `"?"`. -/
theorem c3_resolver_walk :
    (∀ (d : Json) (p : String),
      resolve_value_path d p = match walkSpec d (splitOnChar '.' p) with
        | some v => pyStr v
        | none => "?")
    ∧ resolve_value_path docAB "a.b" = "42"
    ∧ resolve_value_path docAB "a.c" = "?"
    ∧ resolve_value_path docAB "a.b.c" = "?" :=
  ⟨fun d p => resolve_walk_eq_walkSpec (splitOnChar '.' p) d, by rfl, by rfl, by rfl⟩

/-- C9 (counterexample): a failed fetch does not produce an empty-string
entry — the mapping built over a single failing vector id is empty and the
lookup of that id misses, where the claim requires `some ""`. -/
theorem c9_no_empty_entry_counterexample :
    svg_map_build (fun _ => .error "network error") ["9:99"] = []
    ∧ List.lookup "9:99" (svg_map_build (fun _ => .error "network error") ["9:99"]) = none := by
  constructor
  · rfl
  · rfl

/-- C9 (amended): a failure fetching one vector's markup is caught at that
entry and skipped — the entry is simply absent from the mapping (the
renderer's `svg_map.get(m.id, "")` later defaults it to `""`), and the
construction of every other entry proceeds exactly as if the failing id were
not in the list; one failure never aborts the rest. -/
theorem c9_failure_skips_entry (fetch : String → Except String String)
    (pre suf : List String) (bad e : String) (h : fetch bad = .error e) :
    svg_map_build fetch (pre ++ bad :: suf) = svg_map_build fetch (pre ++ suf) := by
  unfold svg_map_build
  rw [List.foldl_append, List.foldl_append, List.foldl_cons, h]

/-- Witness for C9: with a fetch failing exactly on `"bad"`, the mapping
over `["a", "bad", "b"]` equals the mapping over `["a", "b"]`. -/
theorem c9_failure_skips_entry_witness :
    svg_map_build (fun nid => if nid == "bad" then .error "boom" else .ok nid) ["a", "bad", "b"]
      = svg_map_build (fun nid => if nid == "bad" then .error "boom" else .ok nid) ["a", "b"] :=
  c9_failure_skips_entry _ ["a"] ["b"] "bad" "boom" rfl

/-- C1: `parse_node` on a raw mapping whose `type` is missing or not one of
`"FRAME"`, `"TEXT"`, `"VECTOR"` falls back to `FrameNode.model_validate`,
and that fallback always raises: `schema.FrameNode` declares
`type: Literal["FRAME"]`, so the unrecognised discriminant itself fails
validation (besides any missing required field).  The claim (and the spec's
fallback contract) says this parse succeeds as a Container. -/
theorem c1_unknown_type_always_raises (r : RawNode)
    (h1 : r.type ≠ some "FRAME") (h2 : r.type ≠ some "TEXT") (h3 : r.type ≠ some "VECTOR") :
    ∃ e, parse_node r = .error e := by
  obtain ⟨id, name, ty, chars, kids⟩ := r
  simp only [RawNode.type] at h1 h2 h3
  have hb1 : (ty == some "FRAME") = false := beq_eq_false_iff_ne.mpr h1
  have hb2 : (ty == some "TEXT") = false := beq_eq_false_iff_ne.mpr h2
  have hb3 : (ty == some "VECTOR") = false := beq_eq_false_iff_ne.mpr h3
  have hdisp : parse_node (RawNode.mk id name ty chars kids)
      = validateFrame (RawNode.mk id name ty chars kids) := by
    simp [parse_node, RawNode.type, hb1, hb2, hb3]
  rw [hdisp]
  cases id with
  | none => exact ⟨"FrameNode: field required: id", by rw [validateFrame.eq_def]⟩
  | some i =>
    cases name with
    | none => exact ⟨"FrameNode: field required: name", by rw [validateFrame.eq_def]⟩
    | some nm =>
      exact ⟨"FrameNode: type must be the literal FRAME", by rw [validateFrame.eq_def]; simp [hb1]⟩

/-- Witness for C1: the concrete raw node
`{"id": "9:1", "name": null, "type": "STICKY"}` makes `parse_node` raise. -/
theorem c1_unknown_type_always_raises_witness :
    ∃ e, parse_node (RawNode.mk (some "9:1") (some none) (some "STICKY") none none) = .error e :=
  c1_unknown_type_always_raises _ (by decide) (by decide) (by decide)

theorem strokeWeightTw_cond_iff (w : PyFloat) (strokes : Option (List Paint)) (hd : 0 < w.den) :
    (w.truthy && w.pos && !(strokes.getD []).isEmpty) = true
      ↔ (0 < w.toRat ∧ strokes.getD [] ≠ []) := by
  simp only [Bool.and_eq_true, Bool.not_eq_true']
  rw [PyFloat.truthy_iff w hd, PyFloat.pos_iff w hd]
  constructor
  · rintro ⟨⟨-, hp⟩, he⟩
    refine ⟨hp, ?_⟩
    cases h : strokes.getD [] with
    | nil => rw [h] at he; simp at he
    | cons a l => simp
  · rintro ⟨hp, hne⟩
    refine ⟨⟨ne_of_gt hp, hp⟩, ?_⟩
    cases h : strokes.getD [] with
    | nil => exact absurd h hne
    | cons a l => rfl

/-- C2: the `strokeWeight` rule emits the `border` marker and the
integer-pixel `border-[{n}px]` token exactly when the weight is positive and
the node's `strokes` list is non-empty; a positive weight with `strokes == []`
emits nothing; and the `strokes` rule contributes one `border-[rgba(…)]`
token per solid stroke paint with a color. -/
theorem c2_strokeWeight_border (m : FrameData) (w : PyFloat)
    (hw : m.strokeWeight = some w) (hd : 0 < w.den) :
    (strokeWeightTw w m.strokes = ["border", "border-[" ++ intStr (pyInt w) ++ "px]"]
      ↔ (0 < w.toRat ∧ m.strokes.getD [] ≠ []))
    ∧ (strokeWeightTw w m.strokes = [] ↔ ¬(0 < w.toRat ∧ m.strokes.getD [] ≠ []))
    ∧ evalOptRule m.strokeWeight (fun v => strokeWeightTw v m.strokes) = strokeWeightTw w m.strokes
    ∧ (∀ p c, p ∈ m.strokes.getD [] → p.type = some "SOLID" → p.color = some c →
        ("border-[" ++ rgbaStr c ++ "]") ∈ strokesTwFrame m.strokes) := by
  have hcond := strokeWeightTw_cond_iff w m.strokes hd
  refine ⟨?_, ?_, by rw [hw]; rfl, ?_⟩
  · unfold strokeWeightTw
    by_cases hc : 0 < w.toRat ∧ m.strokes.getD [] ≠ []
    · rw [if_pos (hcond.mpr hc)]
      simp [hc]
    · rw [if_neg (fun h => hc (hcond.mp h))]
      simp [hc]
  · unfold strokeWeightTw
    by_cases hc : 0 < w.toRat ∧ m.strokes.getD [] ≠ []
    · rw [if_pos (hcond.mpr hc)]
      simp [hc]
    · rw [if_neg (fun h => hc (hcond.mp h))]
      simp [hc]
  · intro p c hp ht hcol
    unfold strokesTwFrame
    exact List.mem_filterMap.mpr ⟨p, hp, by simp [ht, hcol]⟩

/-- Witness for C2: weight `2.0` with one solid red stroke paint emits the
border marker and the 2-pixel width token; the same weight with `strokes == []`
emits nothing. -/
theorem c2_strokeWeight_border_witness :
    strokeWeightTw ⟨2, 1⟩ (some [{ type := some "SOLID", color := some ⟨⟨1, 1⟩, ⟨0, 1⟩, ⟨0, 1⟩, ⟨1, 1⟩⟩ }])
      = ["border", "border-[2px]"]
    ∧ strokeWeightTw ⟨2, 1⟩ (some []) = [] := by
  constructor
  · exact (c2_strokeWeight_border
      { id := "f", name := none,
        strokes := some [{ type := some "SOLID", color := some ⟨⟨1, 1⟩, ⟨0, 1⟩, ⟨0, 1⟩, ⟨1, 1⟩⟩ }],
        strokeWeight := some ⟨2, 1⟩ }
      ⟨2, 1⟩ rfl (by decide)).1.mpr ⟨by norm_num [PyFloat.toRat], by decide⟩
  · exact (c2_strokeWeight_border
      { id := "f", name := none, strokes := some [], strokeWeight := some ⟨2, 1⟩ }
      ⟨2, 1⟩ rfl (by decide)).2.1.mpr (by simp)

/-- C6 (amended): an effect contributes tokens only when it is one of the
two shadow kinds and `offset`, `radius`, `color` all pass Python's
truthiness test — presence alone is not enough, a present radius of `0.0`
is falsy and disables the effect.  A qualifying drop shadow emits exactly
the one offset+blur+rgba token, a qualifying inner shadow exactly the
`shadow-inner` marker plus that same token (always together); blur kinds
emit nothing. -/
theorem c6_effect_tokens (e : Effect) :
    effect_to_tailwind e =
      match e.offset, e.radius, e.color with
      | some o, some rad, some c =>
        if rad.num ≠ 0 then
          if e.type = .DROP_SHADOW then [shadowTok o rad c]
          else if e.type = .INNER_SHADOW then ["shadow-inner", shadowTok o rad c]
          else []
        else []
      | _, _, _ => [] := by
  obtain ⟨t, vis, bm, color, offset, rad, spread⟩ := e
  cases offset <;> cases rad <;> cases color <;> cases t <;>
    simp [effect_to_tailwind, PyFloat.truthy, bne_iff_ne]

/-- C6 (counterexample): a drop shadow whose `offset`, `radius` and `color`
are all present, but whose radius is `0.0`, emits no token at all, where the
claim's presence check demands exactly one. -/
theorem c6_zero_radius_counterexample :
    effect_to_tailwind
      { type := .DROP_SHADOW, color := some ⟨⟨0, 1⟩, ⟨0, 1⟩, ⟨0, 1⟩, ⟨1, 1⟩⟩,
        offset := some ⟨⟨1, 1⟩, ⟨1, 1⟩⟩, radius := some ⟨0, 1⟩ } = [] := by decide

/-- C7: for a text style, the font-weight addend emits `font-bold` alone
when the weight is at least 700, `font-medium` alone when it is at least 500
but below 700 (the 500 boundary inclusive), and nothing below 500 or when
the weight is absent; the two tokens are never emitted together. -/
theorem c7_font_weight :
    (∀ w : PyFloat, 0 < w.den →
      fontWeightTw (some w) =
        (if (700 : ℚ) ≤ w.toRat then ["font-bold"]
         else if (500 : ℚ) ≤ w.toRat then ["font-medium"] else []))
    ∧ fontWeightTw none = []
    ∧ (∀ fw : Option PyFloat, ¬("font-bold" ∈ fontWeightTw fw ∧ "font-medium" ∈ fontWeightTw fw)) := by
  refine ⟨?_, rfl, ?_⟩
  · intro w hd
    have h7 : (w.geNat 700 = true) = ((700 : ℚ) ≤ w.toRat) := by
      rw [PyFloat.geNat_iff w hd 700]; norm_num
    have h5 : (w.geNat 500 = true) = ((500 : ℚ) ≤ w.toRat) := by
      rw [PyFloat.geNat_iff w hd 500]; norm_num
    simp only [fontWeightTw]
    by_cases hc7 : (700 : ℚ) ≤ w.toRat
    · have htr : w.truthy = true := (PyFloat.truthy_iff w hd).mpr (by positivity)
      rw [if_pos (by rw [Bool.and_eq_true, htr, h7]; exact ⟨rfl, hc7⟩), if_pos hc7]
    · have hb7 : (w.truthy && w.geNat 700) = false := by
        rw [Bool.and_eq_false_iff]
        right
        rw [Bool.eq_false_iff, ne_eq, h7]
        exact hc7
      rw [if_neg (by rw [hb7]; exact Bool.false_ne_true), if_neg hc7]
      by_cases hc5 : (500 : ℚ) ≤ w.toRat
      · have htr : w.truthy = true := (PyFloat.truthy_iff w hd).mpr (by positivity)
        rw [if_pos (by rw [Bool.and_eq_true, htr, h5]; exact ⟨rfl, hc5⟩), if_pos hc5]
      · have hb5 : (w.truthy && w.geNat 500) = false := by
          rw [Bool.and_eq_false_iff]
          right
          rw [Bool.eq_false_iff, ne_eq, h5]
          exact hc5
        rw [if_neg (by rw [hb5]; exact Bool.false_ne_true), if_neg hc5]
  · intro fw
    cases fw with
    | none => simp [fontWeightTw]
    | some w =>
      simp only [fontWeightTw]
      rintro ⟨hb, hm⟩
      by_cases h1 : (w.truthy && w.geNat 700) = true
      · rw [if_pos h1] at hm
        simp at hm
      · rw [if_neg h1] at hb hm
        by_cases h2 : (w.truthy && w.geNat 500) = true
        · rw [if_pos h2] at hb
          simp at hb
        · rw [if_neg h2] at hb
          simp at hb

/-- Witness for C7: weight 700 gives `font-bold` only, 550 gives
`font-medium` only, 500 gives `font-medium`, 300 gives neither. -/
theorem c7_font_weight_witness :
    fontWeightTw (some ⟨700, 1⟩) = ["font-bold"]
    ∧ fontWeightTw (some ⟨550, 1⟩) = ["font-medium"]
    ∧ fontWeightTw (some ⟨500, 1⟩) = ["font-medium"]
    ∧ fontWeightTw (some ⟨300, 1⟩) = [] := by
  refine ⟨?_, ?_, ?_, ?_⟩
  · rw [c7_font_weight.1 ⟨700, 1⟩ (by decide)]
    norm_num [PyFloat.toRat]
  · rw [c7_font_weight.1 ⟨550, 1⟩ (by decide)]
    norm_num [PyFloat.toRat]
  · rw [c7_font_weight.1 ⟨500, 1⟩ (by decide)]
    norm_num [PyFloat.toRat]
  · rw [c7_font_weight.1 ⟨300, 1⟩ (by decide)]
    norm_num [PyFloat.toRat]

/-- C8: for a solid paint whose color channels `r, g, b` lie in `[0, 1]`
(denominators positive, i.e. genuine float values), the emitted rgba token's
integer channels are exactly `⌊r*255⌋`, `⌊g*255⌋`, `⌊b*255⌋` — `int()` is
truncation, which coincides with floor on these non-negative products — and
the alpha component is the value `a` rendered unmodified; the frame `fills`
rule wraps exactly this token in `bg-[…]`. -/
theorem c8_rgba_channels (c : Color)
    (hdr : 0 < c.r.den) (hdg : 0 < c.g.den) (hdb : 0 < c.b.den)
    (hr0 : 0 ≤ c.r.toRat) (hr1 : c.r.toRat ≤ 1)
    (hg0 : 0 ≤ c.g.toRat) (hg1 : c.g.toRat ≤ 1)
    (hb0 : 0 ≤ c.b.toRat) (hb1 : c.b.toRat ≤ 1) :
    rgbaStr c = "rgba(" ++ intStr ⌊c.r.toRat * 255⌋ ++ "," ++ intStr ⌊c.g.toRat * 255⌋ ++ ","
      ++ intStr ⌊c.b.toRat * 255⌋ ++ "," ++ pyFloatStr c.a ++ ")"
    ∧ (∀ p : Paint, p.type = some "SOLID" → p.color = some c →
        fillsTwFrame (some [p]) = ["bg-[" ++ rgbaStr c ++ "]"]) := by
  constructor
  · have hch : ∀ x : PyFloat, 0 < x.den → 0 ≤ x.toRat →
        pyInt (x.mulNat 255) = ⌊x.toRat * 255⌋ := by
      intro x hd h0
      have hnum : 0 ≤ (x.mulNat 255).num := by
        have := PyFloat.num_nonneg_of_toRat x hd h0
        simp only [PyFloat.mulNat]
        positivity
      rw [pyInt_eq_floor (x.mulNat 255) hd hnum, PyFloat.toRat_mulNat]
      norm_num
    rw [rgbaStr, hch c.r hdr hr0, hch c.g hdg hg0, hch c.b hdb hb0]
  · intro p ht hc
    simp [fillsTwFrame, ht, hc]

/-- Witness for C8: the solid color `r = 1.0, g = 0.0, b = 0.0, a = 0.5`
renders as `rgba(255,0,0,0.5)`, and the fills rule emits `bg-[rgba(255,0,0,0.5)]`. -/
theorem c8_rgba_channels_witness :
    rgbaStr ⟨⟨1, 1⟩, ⟨0, 1⟩, ⟨0, 1⟩, ⟨1, 2⟩⟩ = "rgba(255,0,0,0.5)"
    ∧ fillsTwFrame (some [{ type := some "SOLID", color := some ⟨⟨1, 1⟩, ⟨0, 1⟩, ⟨0, 1⟩, ⟨1, 2⟩⟩ }])
        = ["bg-[rgba(255,0,0,0.5)]"] := by
  have h := c8_rgba_channels ⟨⟨1, 1⟩, ⟨0, 1⟩, ⟨0, 1⟩, ⟨1, 2⟩⟩
    (by decide) (by decide) (by decide)
    (by norm_num [PyFloat.toRat]) (by norm_num [PyFloat.toRat])
    (by norm_num [PyFloat.toRat]) (by norm_num [PyFloat.toRat])
    (by norm_num [PyFloat.toRat]) (by norm_num [PyFloat.toRat])
  constructor
  · rw [h.1]
    norm_num [PyFloat.toRat]
    rfl
  · rw [h.2 _ rfl rfl, h.1]
    norm_num [PyFloat.toRat]
    rfl

/-- C4: a text node whose name carries a well-formed binding directive
(marker prefix plus JSON with string `src` and `path`) renders with content
`"..."` and exactly three live-refresh attributes: `hx-get` with the
URL-encoded `src` and the unencoded `path` as query parameters, `hx-swap`
`innerHTML`, and `hx-trigger` equal to `load` when `trigger` is `"once"` or
absent and `every 1s` for any other trigger value. -/
theorem c4_binding_annotations (m : TextData) (n : String) (kvs : List (String × Json))
    (src path : String)
    (hn : m.name = some n) (hne : n ≠ "") (hmark : strStarts (pyStrip n) "$api" = true)
    (hjson : json_loads (pyStrip (replaceFirst n "$api" "")) = some (Json.obj kvs))
    (hsrc : List.lookup "src" kvs = some (Json.str src))
    (hpath : List.lookup "path" kvs = some (Json.str path)) :
    renderText m = Html.p "..." (clsAttrs (twText m) ++
      [("hx-get", "/api/value?src=" ++ urlQuote src ++ "&path=" ++ path),
       ("hx-swap", "innerHTML"),
       ("hx-trigger",
         match List.lookup "trigger" kvs with
         | none => "load"
         | some t => if isOnce t then "load" else "every 1s")]) := by
  have hb : (n != "") = true := bne_iff_ne.mpr hne
  simp only [renderText, hn, hb, hmark, Bool.and_self, if_true, hjson, hsrc, hpath]
  cases htr : List.lookup "trigger" kvs <;> simp [htr, pyStr, isOnce]

/-- Witness for C4: a concrete directive with `trigger: "once"` gets the
`load` trigger, and the same directive with `trigger: "poll"` gets the
repeating `every 1s` trigger. -/
theorem c4_binding_annotations_witness :
    renderText
      { id := "t", characters := none,
        name := some "$api \x7b\"src\":\"https://x/y\",\"path\":\"a.b\",\"trigger\":\"once\"\x7d" }
      = Html.p "..." [("cls", "$api \x7b\"src\":\"https://x/y\",\"path\":\"a.b\",\"trigger\":\"once\"\x7d"),
          ("hx-get", "/api/value?src=https%3A%2F%2Fx%2Fy&path=a.b"),
          ("hx-swap", "innerHTML"), ("hx-trigger", "load")]
    ∧ renderText
      { id := "t", characters := none,
        name := some "$api \x7b\"src\":\"https://x/y\",\"path\":\"a.b\",\"trigger\":\"poll\"\x7d" }
      = Html.p "..." [("cls", "$api \x7b\"src\":\"https://x/y\",\"path\":\"a.b\",\"trigger\":\"poll\"\x7d"),
          ("hx-get", "/api/value?src=https%3A%2F%2Fx%2Fy&path=a.b"),
          ("hx-swap", "innerHTML"), ("hx-trigger", "every 1s")] := by
  constructor
  · rw [c4_binding_annotations _ _
      [("src", Json.str "https://x/y"), ("path", Json.str "a.b"), ("trigger", Json.str "once")]
      "https://x/y" "a.b" rfl (by decide) (by rfl) (by rfl) (by rfl) (by rfl)]
    rfl
  · rw [c4_binding_annotations _ _
      [("src", Json.str "https://x/y"), ("path", Json.str "a.b"), ("trigger", Json.str "poll")]
      "https://x/y" "a.b" rfl (by decide) (by rfl) (by rfl) (by rfl) (by rfl)]
    rfl

/-- C5 (amended): with the binding marker present, malformed JSON yields
text `"?"` with no binding attributes, and so does a missing (or non-string)
`src` — but a *missing `path` alone does not fail*: `config.get("path")`
returns `None`, the f-string renders it as the literal `None`, and the
element still gets content `"..."` plus all three binding attributes. -/
theorem c5_malformed_or_missing_src (m : TextData) (n : String)
    (hn : m.name = some n) (hne : n ≠ "") (hmark : strStarts (pyStrip n) "$api" = true) :
    (json_loads (pyStrip (replaceFirst n "$api" "")) = none →
      renderText m = Html.p "?" (clsAttrs (twText m)))
    ∧ (∀ kvs, json_loads (pyStrip (replaceFirst n "$api" "")) = some (Json.obj kvs) →
        (∀ s, List.lookup "src" kvs ≠ some (Json.str s)) →
        renderText m = Html.p "?" (clsAttrs (twText m)))
    ∧ (∀ kvs src, json_loads (pyStrip (replaceFirst n "$api" "")) = some (Json.obj kvs) →
        List.lookup "src" kvs = some (Json.str src) →
        List.lookup "path" kvs = none →
        renderText m = Html.p "..." (clsAttrs (twText m) ++
          [("hx-get", "/api/value?src=" ++ urlQuote src ++ "&path=None"),
           ("hx-swap", "innerHTML"),
           ("hx-trigger",
             match List.lookup "trigger" kvs with
             | none => "load"
             | some t => if isOnce t then "load" else "every 1s")])) := by
  have hb : (n != "") = true := bne_iff_ne.mpr hne
  refine ⟨?_, ?_, ?_⟩
  · intro hjson
    simp only [renderText, hn, hb, hmark, Bool.and_self, if_true, hjson]
  · intro kvs hjson hnostr
    simp only [renderText, hn, hb, hmark, Bool.and_self, if_true, hjson]
  · intro kvs src hjson hsrc hpath
    simp only [renderText, hn, hb, hmark, Bool.and_self, if_true, hjson, hsrc, hpath]
    cases htr : List.lookup "trigger" kvs <;> simp [htr, pyStr, isOnce] <;>
      simp [String.append_assoc]

/-- C5 (counterexample): the name `$api {"src":"https://x/y"}` carries valid
JSON that is missing the `path` key; the claim demands text `"?"` with no
binding attributes, but the code renders `"..."` with all three attributes
(and the literal `None` as the path query value). -/
theorem c5_missing_path_counterexample :
    renderText
      { id := "t", characters := some "orig",
        name := some "$api \x7b\"src\":\"https://x/y\"\x7d" }
      = Html.p "..." [("cls", "$api \x7b\"src\":\"https://x/y\"\x7d"),
          ("hx-get", "/api/value?src=https%3A%2F%2Fx%2Fy&path=None"),
          ("hx-swap", "innerHTML"), ("hx-trigger", "load")]
    ∧ ∀ attrs, renderText
      { id := "t", characters := some "orig",
        name := some "$api \x7b\"src\":\"https://x/y\"\x7d" } ≠ Html.p "?" attrs := by
  have h1 : renderText
      { id := "t", characters := some "orig",
        name := some "$api \x7b\"src\":\"https://x/y\"\x7d" }
      = Html.p "..." [("cls", "$api \x7b\"src\":\"https://x/y\"\x7d"),
          ("hx-get", "/api/value?src=https%3A%2F%2Fx%2Fy&path=None"),
          ("hx-swap", "innerHTML"), ("hx-trigger", "load")] := by rfl
  refine ⟨h1, ?_⟩
  intro attrs h
  rw [h1] at h
  injection h with h2 h3
  exact absurd h2 (by decide)

/-- Witness for C5 (amended): a name whose remainder is malformed JSON
renders as `"?"` with only the style-class attribute. -/
theorem c5_malformed_or_missing_src_witness :
    renderText { id := "t", characters := some "orig", name := some "$api \x7bnope" }
      = Html.p "?" (clsAttrs (twText { id := "t", characters := some "orig", name := some "$api \x7bnope" }))
    ∧ renderText { id := "t", characters := some "orig", name := some "$api \x7b\"path\":\"a.b\"\x7d" }
      = Html.p "?" (clsAttrs (twText { id := "t", characters := some "orig", name := some "$api \x7b\"path\":\"a.b\"\x7d" })) := by
  constructor
  · exact (c5_malformed_or_missing_src _ "$api \x7bnope" rfl (by decide) (by rfl)).1 (by rfl)
  · exact (c5_malformed_or_missing_src _ "$api \x7b\"path\":\"a.b\"\x7d" rfl (by decide)
      (by rfl)).2.1 [("path", Json.str "a.b")] (by rfl) (by intro s; simp [List.lookup])

/-- C10 (implicit): a text node's solid fill paints emit text-color tokens
(every fills-rule token has the `text-[rgba(…)]` shape), and a text node's
`strokes` and `strokeWeight` attributes have no influence at all on its
token list — `TEXT_TW_MAP` has no rule for them; the `bg-[rgba(…)]`
background rule and the `border-[rgba(…)]` rule (reused by the vector map
for `fills`) belong to the frame and vector maps only. -/
theorem c10_text_fills_are_text_color (m : TextData) (ss : Option (List Paint)) (sw : Option PyFloat) :
    twText { m with strokes := ss, strokeWeight := sw } = twText m
    ∧ (∀ tok ∈ fillsTwText m.fills, ∃ c : Color, tok = "text-[" ++ rgbaStr c ++ "]")
    ∧ (∀ (ps : Option (List Paint)), ∀ tok ∈ strokesTwFrame ps, ∃ c : Color, tok = "border-[" ++ rgbaStr c ++ "]")
    ∧ (∀ (ps : Option (List Paint)), ∀ tok ∈ fillsTwFrame ps, ∃ c : Color, tok = "bg-[" ++ rgbaStr c ++ "]") := by
  refine ⟨rfl, ?_, ?_, ?_⟩
  · intro tok htok
    simp only [fillsTwText, List.mem_filterMap] at htok
    obtain ⟨p, -, hf⟩ := htok
    split at hf
    · obtain ⟨c, -, rfl⟩ := Option.map_eq_some'.mp hf
      exact ⟨c, rfl⟩
    · simp at hf
  · intro ps tok htok
    simp only [strokesTwFrame, List.mem_filterMap] at htok
    obtain ⟨p, -, hf⟩ := htok
    split at hf
    · obtain ⟨c, -, rfl⟩ := Option.map_eq_some'.mp hf
      exact ⟨c, rfl⟩
    · simp at hf
  · intro ps tok htok
    simp only [fillsTwFrame, List.mem_filterMap] at htok
    obtain ⟨p, -, hf⟩ := htok
    split at hf
    · obtain ⟨c, -, rfl⟩ := Option.map_eq_some'.mp hf
      exact ⟨c, rfl⟩
    · simp at hf

/-- Witness for C10: adding a solid stroke paint and a positive stroke
weight to a concrete text node leaves its token list unchanged. -/
theorem c10_text_fills_are_text_color_witness :
    twText
      { id := "t", name := some "x", characters := some "hi",
        strokes := some [{ type := some "SOLID", color := some ⟨⟨1, 1⟩, ⟨0, 1⟩, ⟨0, 1⟩, ⟨1, 1⟩⟩ }],
        strokeWeight := some ⟨5, 1⟩ }
      = twText { id := "t", name := some "x", characters := some "hi" } :=
  (c10_text_fills_are_text_color { id := "t", name := some "x", characters := some "hi" }
    (some [{ type := some "SOLID", color := some ⟨⟨1, 1⟩, ⟨0, 1⟩, ⟨0, 1⟩, ⟨1, 1⟩⟩ }])
    (some ⟨5, 1⟩)).1
